import Mathlib

/-!
Shallow embedding of the Crop Health + Soil dashboard analysis pipeline
(`src/appmake2.py`).

The script builds a cloud-filtered Sentinel-2 NDVI composite, reduces it to a
zonal mean around the selected point, classifies the mean into a health
category, and independently fetches four OpenLandMap soil properties, each
with its own fault isolation.  Remote Earth Engine evaluations (`getInfo`)
are modelled as oracles returning `Except Unit (Option ℚ)`: `.error` is a
raised exception, `.ok none` a null reply, `.ok (some v)` a numeric reply.
Numeric values are rationals; Python's fixed-point formatting `f"{x:.nf}"`
is modelled by `formatFixed` (round half to even on the exact rational).
-/

namespace CropHealth

/-- Round the fraction `num / den` (both naturals, `den ≠ 0` in use) to the
nearest natural number, ties to even — the rounding used by Python
fixed-point formatting. -/
def roundHalfEven (num den : ℕ) : ℕ :=
  let q0 := num / den
  let rem := num % den
  if 2 * rem < den then q0
  else if den < 2 * rem then q0 + 1
  else if q0 % 2 = 0 then q0 else q0 + 1

/-- Model of Python's fixed-point format `f"{q:.nf}"`: `n` digits after the
decimal point, rounding half to even.  The scaling by `10 ^ n` is done on
the numerator so that the whole computation is natural-number arithmetic. -/
def formatFixed (n : ℕ) (q : ℚ) : String :=
  let m := roundHalfEven (q.num.natAbs * 10 ^ n) q.den
  let ip := m / 10 ^ n
  let fp := m % 10 ^ n
  String.mk ((if q.num < 0 then ['-'] else []) ++ Nat.toDigits 10 ip ++
    ['.'] ++ (List.replicate (n - (Nat.toDigits 10 fp).length) '0' ++ Nat.toDigits 10 fp))

/-- Classification branch of `appmake2.py` lines 75-90: from the optional
zonal NDVI mean to `(status, marker color, display string)`.  The source
thresholds are the decimal literals `0.5` and `0.2`, written here as
`mkRat 5 10` and `mkRat 2 10` (the same rationals). -/
def classifyNdvi (mean_ndvi : Option ℚ) : String × String × String :=
  match mean_ndvi with
  | none => ("No Data", "gray", "N/A")
  | some v =>
    if v > mkRat 5 10 then ("Healthy", "green", formatFixed 3 v)
    else if v > mkRat 2 10 then ("Moderately Healthy", "orange", formatFixed 3 v)
    else ("Non-Healthy", "red", formatFixed 3 v)

/-- Model of one `ee.Image` soil layer as seen through the two remote calls
`get_soil_value` makes on it: `bandNames().getInfo()` and
`reduceRegion(mean, point.buffer(b), scale).get(band).getInfo()`. -/
structure SoilImg where
  bandNames : Except Unit (List String)
  reduceRegion : ℚ → ℚ → String → Except Unit (Option ℚ)

/-- One run's view of the raster service: the NDVI composite reduction
oracle (arguments: buffer radius, scale) and the catalog of soil images by
asset identifier. -/
structure RasterEnv where
  ndviReduceRegion : ℚ → ℚ → Except Unit (Option ℚ)
  image : String → SoilImg

/-- Lines 66-73: the NDVI zonal mean, `None` when the remote call raises or
replies null.  The call is made at buffer radius 30 and scale 10. -/
def meanNdvi (env : RasterEnv) : Option ℚ :=
  match env.ndviReduceRegion 30 10 with
  | .error _ => none
  | .ok v => v

/-- Lines 97-109, `get_soil_value`: fetch the band list; if the requested
band is absent return `None` without reducing; otherwise reduce and return
the (possibly null) value; any raised exception yields `None`. -/
def get_soil_value (img : SoilImg) (band_name : String) (buffer scale : ℚ) : Option ℚ :=
  match img.bandNames with
  | .error _ => none
  | .ok bands =>
    if band_name ∈ bands then
      match img.reduceRegion buffer scale band_name with
      | .error _ => none
      | .ok val => val
    else none

/-- The four fixed soil properties of lines 111-133. -/
inductive SoilLayer
  | oc
  | ph
  | sand
  | clay
deriving DecidableEq

/-- OpenLandMap asset identifier of each soil layer. -/
def layerIdOf : SoilLayer → String
  | .oc => "OpenLandMap/SOL/SOL_ORGANIC-CARBON_USDA-6A1C_M/v02"
  | .ph => "OpenLandMap/SOL/SOL_PH-H2O_USDA-4C1A2A_M/v02"
  | .sand => "OpenLandMap/SOL/SOL_SAND-Content_USDA-3A1A1A_M/v02"
  | .clay => "OpenLandMap/SOL/SOL_CLAY-Content_USDA-3A1A1A_M/v02"

/-- Band requested from each soil layer. -/
def bandOf : SoilLayer → String
  | .oc => "ocd_usda.6a1c_m_sl1_250m"
  | .ph => "phh2o_usda.4c1a2a_m_sl1_250m"
  | .sand => "sand_usda.3a1a1a_m_sl1_250m"
  | .clay => "clay_usda.3a1a1a_m_sl1_250m"

/-- Display label (the `soil_info` dictionary key) of each soil layer. -/
def labelOf : SoilLayer → String
  | .oc => "Organic Carbon (g/kg)"
  | .ph => "Soil pH (H2O)"
  | .sand => "Sand Fraction (%)"
  | .clay => "Clay Fraction (%)"

/-- Optional soil reading of one layer, as `appmake2.py` obtains it:
`get_soil_value` on the layer's image and band with the default buffer 250
and scale 250. -/
def soilValue (env : RasterEnv) (l : SoilLayer) : Option ℚ :=
  get_soil_value (env.image (layerIdOf l)) (bandOf l) 250 250

/-- Rendering of one soil reading (lines 115, 121, 127, 133):
`f"{val:.2f}" if val is not None else "No Data"`. -/
def fmtSoil (v : Option ℚ) : String :=
  match v with
  | some x => formatFixed 2 x
  | none => "No Data"

/-- The data the analysis hands to the presentation layer: status, marker
color, NDVI display string, and the insertion-ordered `soil_info` dict. -/
structure AnalysisResult where
  status : String
  color : String
  ndvi_str : String
  soil_info : List (String × String)
deriving DecidableEq

/-- The whole analysis block (lines 49-133) for one button press: NDVI mean,
classification, and the four soil entries in source order. -/
def analyze (env : RasterEnv) : AnalysisResult :=
  let mean_ndvi := meanNdvi env
  let c := classifyNdvi mean_ndvi
  { status := c.1
    color := c.2.1
    ndvi_str := c.2.2
    soil_info :=
      [(labelOf .oc, fmtSoil (soilValue env .oc)),
       (labelOf .ph, fmtSoil (soilValue env .ph)),
       (labelOf .sand, fmtSoil (soilValue env .sand)),
       (labelOf .clay, fmtSoil (soilValue env .clay))] }

/-!
Composite construction (`appmake2.py` lines 55-64).  Earth Engine images are
modelled extensionally: a band is a per-pixel optional value (`none` is a
masked pixel), pixels are abstract sample positions (`ℤ`), image metadata is
an association list of numeric properties, and the fixed analysis point
enters through the boolean `coversPoint` (whether the footprint intersects
it).  Collections are lists of images.
-/

/-- Model of one Sentinel-2 source image as the pipeline consumes it. -/
structure SceneImg where
  coversPoint : Bool
  date : ℤ
  props : List (String × ℚ)
  bands : List (String × (ℤ → Option ℚ))

/-- Value of the named band of an image at a pixel; `none` when the band is
absent or the pixel masked. -/
def bandAt (img : SceneImg) (b : String) (p : ℤ) : Option ℚ :=
  match List.lookup b img.bands with
  | some f => f p
  | none => none

/-- Model of `img.normalizedDifference([b1, b2])`: a one-band image named
`nd` holding `(b1 - b2) / (b1 + b2)`, masked where either input is masked
or the denominator is zero. -/
def normalizedDifference (img : SceneImg) (b1 b2 : String) : SceneImg :=
  { img with bands := [("nd", fun p =>
      match bandAt img b1 p, bandAt img b2 p with
      | some x, some y => if x + y = 0 then none else some ((x - y) / (x + y))
      | _, _ => none)] }

/-- Model of `.rename(new)` on a single-band image: every band of the image
gets the new name (the pipeline only renames one-band images). -/
def renameBands (img : SceneImg) (new : String) : SceneImg :=
  { img with bands := img.bands.map (fun bf => (new, bf.2)) }

/-- Model of `img.addBands(other)`: appends the other image's bands. -/
def addBands (img other : SceneImg) : SceneImg :=
  { img with bands := img.bands ++ other.bands }

/-- Lines 60-62, `add_ndvi`: attach the normalized difference of `B8` and
`B4`, renamed `NDVI`, to the image. -/
def add_ndvi (img : SceneImg) : SceneImg :=
  addBands img (renameBands (normalizedDifference img "B8" "B4") "NDVI")

/-- Model of `.filterBounds(point)`: keep images whose footprint intersects
the analysis point. -/
def filterBounds (c : List SceneImg) : List SceneImg :=
  c.filter (·.coversPoint)

/-- Model of `.filterDate(start, end)`: keep images dated in `[d1, d2)`
(Earth Engine date filtering is inclusive-start, exclusive-end). -/
def filterDate (c : List SceneImg) (d1 d2 : ℤ) : List SceneImg :=
  c.filter (fun i => decide (d1 ≤ i.date ∧ i.date < d2))

/-- Model of `.filter(ee.Filter.lt(prop, t))`: keep images whose metadata
property `prop` is present and strictly below `t` (an image without the
property fails the filter). -/
def filterLtMeta (c : List SceneImg) (prop : String) (t : ℚ) : List SceneImg :=
  c.filter (fun i =>
    match List.lookup prop i.props with
    | some v => decide (v < t)
    | none => false)

/-- Median of a list of rationals: `none` on the empty list, the middle
element (mean of the two middle elements for even length) otherwise. -/
def listMedian (l : List ℚ) : Option ℚ :=
  match l with
  | [] => none
  | _ =>
    let s := l.mergeSort (· ≤ ·)
    some (if s.length % 2 = 1 then s.getD (s.length / 2) 0
          else (s.getD (s.length / 2 - 1) 0 + s.getD (s.length / 2) 0) / 2)

/-- Band names a collection reduction operates on: those of the leading
image (Earth Engine requires a homogeneous collection); the empty
collection reduces to a band-less image. -/
def collBandNames (c : List SceneImg) : List String :=
  match c with
  | [] => []
  | i :: _ => i.bands.map Prod.fst

/-- Model of `ImageCollection.median()`: a composite whose value in each
band at each pixel is the median of the unmasked values of that band across
the stack. -/
def medianColl (c : List SceneImg) : SceneImg :=
  { coversPoint := true
    date := 0
    props := []
    bands := (collBandNames c).map (fun b =>
      (b, fun p => listMedian (c.filterMap (fun i => bandAt i b p)))) }

/-- Model of `.select(b)`: keep only the bands named `b`. -/
def selectBand (img : SceneImg) (b : String) : SceneImg :=
  { img with bands := img.bands.filter (fun nf => nf.1 == b) }

/-- Lines 55-64: the NDVI composite.  Filter the collection to the point,
the `[d1, d2)` window and cloudy-pixel percentage below 10, attach the NDVI
band to every retained image, take the per-pixel median, and select the
NDVI band. -/
def s2Composite (c : List SceneImg) (d1 d2 : ℤ) : SceneImg :=
  selectBand
    (medianColl
      ((filterLtMeta (filterDate (filterBounds c) d1 d2) "CLOUDY_PIXEL_PERCENTAGE" 10).map
        add_ndvi))
    "NDVI"

/-- Specification-side description of the retained images: those that cover
the point, fall in the window, and carry a cloudy-pixel percentage below
the threshold. -/
def retainedImgs (c : List SceneImg) (d1 d2 : ℤ) : List SceneImg :=
  c.filter (fun i =>
    i.coversPoint &&
    decide (d1 ≤ i.date ∧ i.date < d2) &&
    (match List.lookup "CLOUDY_PIXEL_PERCENTAGE" i.props with
     | some v => decide (v < 10)
     | none => false))

/-- Specification-side per-image NDVI: the normalized difference of the
near-infrared band `B8` and the red band `B4` at a pixel. -/
def ndviAt (img : SceneImg) (p : ℤ) : Option ℚ :=
  match bandAt img "B8" p, bandAt img "B4" p with
  | some x, some y => if x + y = 0 then none else some ((x - y) / (x + y))
  | _, _ => none

/-!
Concrete environments and scenes used by the witnesses below.
-/

/-- Concrete environment for the zero-NDVI witness: the composite reduction
replies `0`, soil images reply nothing. -/
def envZero : RasterEnv :=
  { ndviReduceRegion := fun _ _ => .ok (some 0)
    image := fun _ => { bandNames := .ok [], reduceRegion := fun _ _ _ => .ok none } }

/-- Environment for the fault-isolation witness: every remote call
succeeds; NDVI mean `0.62`, every soil reading `6.8`. -/
def envAllOk : RasterEnv :=
  { ndviReduceRegion := fun _ _ => .ok (some (mkRat 62 100))
    image := fun _ =>
      { bandNames := .ok ["ocd_usda.6a1c_m_sl1_250m", "phh2o_usda.4c1a2a_m_sl1_250m",
          "sand_usda.3a1a1a_m_sl1_250m", "clay_usda.3a1a1a_m_sl1_250m"]
        reduceRegion := fun _ _ _ => .ok (some (mkRat 68 10)) } }

/-- Environment identical to `envAllOk` except that the organic-carbon
image's band query raises (a simulated transport error). -/
def envOcFails : RasterEnv :=
  { ndviReduceRegion := fun _ _ => .ok (some (mkRat 62 100))
    image := fun id =>
      if id = layerIdOf .oc then
        { bandNames := .error (), reduceRegion := fun _ _ _ => .error () }
      else envAllOk.image id }

/-- Soil image whose reduction oracle only answers at buffer 250 and scale
250 and raises anywhere else. -/
def soilImgAt250 : SoilImg :=
  { bandNames := .ok ["ocd_usda.6a1c_m_sl1_250m", "phh2o_usda.4c1a2a_m_sl1_250m",
      "sand_usda.3a1a1a_m_sl1_250m", "clay_usda.3a1a1a_m_sl1_250m"]
    reduceRegion := fun b s _ =>
      if b = 250 ∧ s = 250 then .ok (some (mkRat 68 10)) else .error () }

/-- Environment whose oracles answer only at the parameter points the
analysis is specified to use. -/
def envOnlyAtParams : RasterEnv :=
  { ndviReduceRegion := fun b s =>
      if b = 30 ∧ s = 10 then .ok (some (mkRat 62 100)) else .error ()
    image := fun _ => soilImgAt250 }

/-- Second presentation of the all-succeeding environment: syntactically
different closures (`mkRat 31 50` for `0.62`, `mkRat 34 5` for `6.8`) that
respond identically to `envAllOk`. -/
def envAllOkAlt : RasterEnv :=
  { ndviReduceRegion := fun _ _ => .ok (some (mkRat 31 50))
    image := fun _ =>
      { bandNames := .ok ["ocd_usda.6a1c_m_sl1_250m", "phh2o_usda.4c1a2a_m_sl1_250m",
          "sand_usda.3a1a1a_m_sl1_250m", "clay_usda.3a1a1a_m_sl1_250m"]
        reduceRegion := fun _ _ _ => .ok (some (mkRat 34 5)) } }

/-- Cloud-free scene over the point, in the window, NDVI `(3-1)/(3+1)`. -/
def imgClear : SceneImg :=
  { coversPoint := true
    date := 5
    props := [("CLOUDY_PIXEL_PERCENTAGE", mkRat 5 1)]
    bands := [("B8", fun _ => some (mkRat 3 1)), ("B4", fun _ => some (mkRat 1 1))] }

/-- Scene rejected by the cloud filter (50 percent cloudy). -/
def imgCloudy : SceneImg :=
  { imgClear with props := [("CLOUDY_PIXEL_PERCENTAGE", mkRat 50 1)] }

/-- Scene not covering the point. -/
def imgFar : SceneImg :=
  { imgClear with coversPoint := false }

/-- Witness collection for the composite characterization. -/
def collW : List SceneImg := [imgClear, imgCloudy, imgFar]

/-- Scene whose cloudy-pixel percentage is exactly the threshold 10. -/
def imgCloudTen : SceneImg :=
  { coversPoint := true
    date := 5
    props := [("CLOUDY_PIXEL_PERCENTAGE", mkRat 10 1)]
    bands := [("B8", fun _ => some (mkRat 3 1)), ("B4", fun _ => some (mkRat 1 1))] }

example : formatFixed 3 (mkRat 6789 10000) = "0.679" := by decide
example : formatFixed 2 (mkRat 123 10) = "12.30" := by decide
example : formatFixed 2 (mkRat 0 1) = "0.00" := by decide
example : formatFixed 3 (mkRat 0 1) = "0.000" := by decide
example : formatFixed 3 (mkRat 62 100) = "0.620" := by decide
example : formatFixed 2 (mkRat (-3) 10) = "-0.30" := by decide
example : classifyNdvi (some (mkRat 62 100)) = ("Healthy", "green", "0.620") := by decide
example : classifyNdvi (some (mkRat 5 10)) = ("Moderately Healthy", "orange", "0.500") := by decide
example : classifyNdvi (some (mkRat 2 10)) = ("Non-Healthy", "red", "0.200") := by decide
example : classifyNdvi none = ("No Data", "gray", "N/A") := by decide

/-! Helper lemmas shared by the claim theorems. -/

lemma mkRat_five_tenths : (mkRat 5 10 : ℚ) = 0.5 := by
  norm_num [Rat.mkRat_eq_div]

lemma mkRat_two_tenths : (mkRat 2 10 : ℚ) = 0.2 := by
  norm_num [Rat.mkRat_eq_div]

lemma dot_mem_formatFixed (n : ℕ) (q : ℚ) : '.' ∈ (formatFixed n q).data := by
  unfold formatFixed
  simp [List.mem_append]

lemma formatFixed_ne_NoData (n : ℕ) (q : ℚ) : formatFixed n q ≠ "No Data" := by
  intro h
  have hdot := dot_mem_formatFixed n q
  rw [h] at hdot
  exact absurd hdot (by decide)

lemma formatFixed_ne_NA (n : ℕ) (q : ℚ) : formatFixed n q ≠ "N/A" := by
  intro h
  have hdot := dot_mem_formatFixed n q
  rw [h] at hdot
  exact absurd hdot (by decide)

/-- C1: the health classification is total in the optional NDVI value:
`No Data` iff the value is absent (checked before any numeric comparison),
`Healthy` iff present and strictly above `0.5`, `Moderately Healthy` iff
present and in `(0.2, 0.5]`, `Non-Healthy` iff present and at most `0.2`
(negative values included); the marker colors are gray, green, orange and
red exactly for those categories. -/
theorem ndvi_classification_spec (v : Option ℚ) :
    ((classifyNdvi v).1 = "No Data" ↔ v = none) ∧
    ((classifyNdvi v).1 = "Healthy" ↔ ∃ x, v = some x ∧ (0.5 : ℚ) < x) ∧
    ((classifyNdvi v).1 = "Moderately Healthy" ↔
      ∃ x, v = some x ∧ (0.2 : ℚ) < x ∧ x ≤ 0.5) ∧
    ((classifyNdvi v).1 = "Non-Healthy" ↔ ∃ x, v = some x ∧ x ≤ (0.2 : ℚ)) ∧
    ((classifyNdvi v).2.1 = "gray" ↔ (classifyNdvi v).1 = "No Data") ∧
    ((classifyNdvi v).2.1 = "green" ↔ (classifyNdvi v).1 = "Healthy") ∧
    ((classifyNdvi v).2.1 = "orange" ↔ (classifyNdvi v).1 = "Moderately Healthy") ∧
    ((classifyNdvi v).2.1 = "red" ↔ (classifyNdvi v).1 = "Non-Healthy") := by
  cases v with
  | none => simp [classifyNdvi]
  | some x =>
    simp only [classifyNdvi, mkRat_five_tenths, mkRat_two_tenths]
    split_ifs with h1 h2 <;>
      refine ⟨?_, ?_, ?_, ?_, ?_, ?_, ?_, ?_⟩ <;>
      simp <;>
      first
        | linarith
        | exact ⟨by linarith, by linarith⟩
        | (intro hy; linarith)

/-- C4: `get_soil_value` is total (it returns an `Option`, never raising)
and returns `none` exactly when the band-name query raises, the named band
is absent from the raster (in which case no constraint on the reduction
oracle is involved: the reduction is not consulted), the reduction raises,
or the reduction replies null; it returns `some x` exactly when the band is
present and the reduction replies `x`. -/
theorem get_soil_value_spec (img : SoilImg) (band_name : String) (buffer scale : ℚ) :
    (get_soil_value img band_name buffer scale = none ↔
      img.bandNames = .error () ∨
      (∃ bands, img.bandNames = .ok bands ∧ band_name ∉ bands) ∨
      (∃ bands, img.bandNames = .ok bands ∧ band_name ∈ bands ∧
        img.reduceRegion buffer scale band_name = .error ()) ∨
      (∃ bands, img.bandNames = .ok bands ∧ band_name ∈ bands ∧
        img.reduceRegion buffer scale band_name = .ok none)) ∧
    (∀ x : ℚ, get_soil_value img band_name buffer scale = some x ↔
      ∃ bands, img.bandNames = .ok bands ∧ band_name ∈ bands ∧
        img.reduceRegion buffer scale band_name = .ok (some x)) := by
  rcases hbn : img.bandNames with e | bands
  · cases e
    simp [get_soil_value, hbn]
  · by_cases hmem : band_name ∈ bands
    · rcases hrr : img.reduceRegion buffer scale band_name with e | val
      · cases e
        simp [get_soil_value, hbn, hmem, hrr]
      · cases val with
        | none => simp [get_soil_value, hbn, hmem, hrr]
        | some x => simp [get_soil_value, hbn, hmem, hrr]
    · simp [get_soil_value, hbn, hmem]

/-- C5: present values render as fixed-point decimals — the NDVI value
`0.6789` (`mkRat 6789 10000`) renders as `0.679` with three decimals, the
soil reading `12.3` (`mkRat 123 10`) as `12.30` with two — and a present
soil reading of exactly `0.0` renders as `0.00`; only the absent marker
renders as `No Data`. -/
theorem fixed_point_rendering :
    (mkRat 6789 10000 : ℚ) = 0.6789 ∧
    (mkRat 123 10 : ℚ) = 12.3 ∧
    (classifyNdvi (some (mkRat 6789 10000))).2.2 = "0.679" ∧
    fmtSoil (some (mkRat 123 10)) = "12.30" ∧
    fmtSoil (some 0) = "0.00" ∧
    (∀ v : Option ℚ, fmtSoil v = "No Data" ↔ v = none) := by
  refine ⟨by norm_num [Rat.mkRat_eq_div], by norm_num [Rat.mkRat_eq_div],
    by decide, by decide, by decide, ?_⟩
  intro v
  cases v with
  | none => simp [fmtSoil]
  | some q =>
    simp only [fmtSoil]
    exact ⟨fun h => absurd h (formatFixed_ne_NoData 2 q), fun h => nomatch h⟩

/-- C10: a zonal NDVI mean of exactly `0.0` is treated as present (the
source tests `mean_ndvi is None`, not truthiness): the run classifies it
`Non-Healthy` and displays `0.000`, never `No Data` / `N/A`. -/
theorem zero_ndvi_is_present (env : RasterEnv)
    (h : env.ndviReduceRegion 30 10 = .ok (some 0)) :
    (analyze env).status = "Non-Healthy" ∧
    (analyze env).color = "red" ∧
    (analyze env).ndvi_str = "0.000" := by
  have hm : meanNdvi env = some 0 := by
    unfold meanNdvi
    rw [h]
  have hc : classifyNdvi (some 0) = ("Non-Healthy", "red", "0.000") := by decide
  refine ⟨?_, ?_, ?_⟩
  · show (classifyNdvi (meanNdvi env)).1 = "Non-Healthy"
    rw [hm, hc]
  · show (classifyNdvi (meanNdvi env)).2.1 = "red"
    rw [hm, hc]
  · show (classifyNdvi (meanNdvi env)).2.2 = "0.000"
    rw [hm, hc]

/-- Witness for C10 at `envZero`. -/
theorem zero_ndvi_is_present_witness :
    envZero.ndviReduceRegion 30 10 = .ok (some 0) ∧
    (analyze envZero).status = "Non-Healthy" ∧
    (analyze envZero).color = "red" ∧
    (analyze envZero).ndvi_str = "0.000" :=
  ⟨rfl, zero_ndvi_is_present envZero rfl⟩

lemma fmtSoil_cases (v : Option ℚ) :
    fmtSoil v = "No Data" ∨ ∃ q, fmtSoil v = formatFixed 2 q := by
  cases v with
  | none => exact Or.inl rfl
  | some q => exact Or.inr ⟨q, rfl⟩

/-- C2: the analysis never fails: for every raster environment (however the
remote calls raise, reply null, or reply values) the run yields a complete
result — a status among the four categories, the NDVI display string which
is `N/A` exactly when the mean is absent, and all four soil entries in
order, each either `No Data` or a two-decimal number. -/
theorem analyze_total_and_complete (env : RasterEnv) :
    ((analyze env).status = "No Data" ∨ (analyze env).status = "Healthy" ∨
      (analyze env).status = "Moderately Healthy" ∨
      (analyze env).status = "Non-Healthy") ∧
    ((analyze env).ndvi_str = "N/A" ↔ meanNdvi env = none) ∧
    (analyze env).soil_info.map Prod.fst =
      ["Organic Carbon (g/kg)", "Soil pH (H2O)", "Sand Fraction (%)",
       "Clay Fraction (%)"] ∧
    (analyze env).soil_info.Forall
      (fun e => e.2 = "No Data" ∨ ∃ q, e.2 = formatFixed 2 q) := by
  refine ⟨?_, ?_, rfl, ?_⟩
  · show (classifyNdvi (meanNdvi env)).1 = "No Data" ∨
      (classifyNdvi (meanNdvi env)).1 = "Healthy" ∨
      (classifyNdvi (meanNdvi env)).1 = "Moderately Healthy" ∨
      (classifyNdvi (meanNdvi env)).1 = "Non-Healthy"
    cases meanNdvi env with
    | none => exact Or.inl rfl
    | some x =>
      simp only [classifyNdvi]
      split_ifs <;> simp
  · show (classifyNdvi (meanNdvi env)).2.2 = "N/A" ↔ _
    cases meanNdvi env with
    | none => simp [classifyNdvi]
    | some x =>
      simp only [classifyNdvi]
      constructor
      · intro h
        exfalso
        split_ifs at h <;> exact formatFixed_ne_NA 3 x h
      · intro h
        cases h
  · show List.Forall _ [_, _, _, _]
    exact ⟨fmtSoil_cases _, fmtSoil_cases _, fmtSoil_cases _, fmtSoil_cases _⟩

lemma get_soil_value_congr (i1 i2 : SoilImg) (band : String) (b s : ℚ)
    (h1 : i1.bandNames = i2.bandNames)
    (h2 : i1.reduceRegion b s band = i2.reduceRegion b s band) :
    get_soil_value i1 band b s = get_soil_value i2 band b s := by
  unfold get_soil_value
  rw [h1, h2]

lemma analyze_fields (env : RasterEnv) :
    (analyze env).status = (classifyNdvi (meanNdvi env)).1 ∧
    (analyze env).color = (classifyNdvi (meanNdvi env)).2.1 ∧
    (analyze env).ndvi_str = (classifyNdvi (meanNdvi env)).2.2 ∧
    (analyze env).soil_info =
      [(labelOf .oc, fmtSoil (soilValue env .oc)),
       (labelOf .ph, fmtSoil (soilValue env .ph)),
       (labelOf .sand, fmtSoil (soilValue env .sand)),
       (labelOf .clay, fmtSoil (soilValue env .clay))] :=
  ⟨rfl, rfl, rfl, rfl⟩

/-- C3: per-property fault isolation.  If a second run sees the identical
vegetation oracle and identical soil images except at one layer, where a
previously successful fetch now fails, then the result changes only in that
layer's `soil_info` entry (which becomes `No Data`): status, color, NDVI
string and the other three entries are unchanged. -/
theorem soil_fault_isolation (env env2 : RasterEnv) (l : SoilLayer)
    (hndvi : env2.ndviReduceRegion 30 10 = env.ndviReduceRegion 30 10)
    (hothers : ∀ id, id ≠ layerIdOf l → env2.image id = env.image id)
    (hsucc : ∃ x, soilValue env l = some x)
    (hfail : soilValue env2 l = none) :
    (analyze env2).status = (analyze env).status ∧
    (analyze env2).color = (analyze env).color ∧
    (analyze env2).ndvi_str = (analyze env).ndvi_str ∧
    (analyze env2).soil_info =
      (analyze env).soil_info.map
        (fun e => if e.1 = labelOf l then (labelOf l, "No Data") else e) := by
  have hm : meanNdvi env2 = meanNdvi env := by
    unfold meanNdvi
    rw [hndvi]
  obtain ⟨h1, h2, h3, h4⟩ := analyze_fields env
  obtain ⟨g1, g2, g3, g4⟩ := analyze_fields env2
  refine ⟨?_, ?_, ?_, ?_⟩
  · rw [g1, h1, hm]
  · rw [g2, h2, hm]
  · rw [g3, h3, hm]
  · have hsame : ∀ l2 : SoilLayer, l2 ≠ l → soilValue env2 l2 = soilValue env l2 := by
      intro l2 hne
      unfold soilValue
      rw [hothers (layerIdOf l2) ?_]
      cases l <;> cases l2 <;> first | decide | exact absurd rfl hne
    rw [g4, h4]
    cases l with
    | oc =>
      rw [hfail, hsame .ph (by decide), hsame .sand (by decide), hsame .clay (by decide)]
      simp [labelOf, fmtSoil]
    | ph =>
      rw [hfail, hsame .oc (by decide), hsame .sand (by decide), hsame .clay (by decide)]
      simp [labelOf, fmtSoil]
    | sand =>
      rw [hfail, hsame .oc (by decide), hsame .ph (by decide), hsame .clay (by decide)]
      simp [labelOf, fmtSoil]
    | clay =>
      rw [hfail, hsame .oc (by decide), hsame .ph (by decide), hsame .sand (by decide)]
      simp [labelOf, fmtSoil]

/-- Witness for C3: failing the organic-carbon fetch flips only its entry. -/
theorem soil_fault_isolation_witness :
    envOcFails.ndviReduceRegion 30 10 = envAllOk.ndviReduceRegion 30 10 ∧
    soilValue envAllOk .oc = some (mkRat 68 10) ∧
    soilValue envOcFails .oc = none ∧
    ((analyze envOcFails).status = (analyze envAllOk).status ∧
      (analyze envOcFails).color = (analyze envAllOk).color ∧
      (analyze envOcFails).ndvi_str = (analyze envAllOk).ndvi_str ∧
      (analyze envOcFails).soil_info =
        (analyze envAllOk).soil_info.map
          (fun e => if e.1 = labelOf .oc then (labelOf .oc, "No Data") else e)) :=
  ⟨rfl, by decide, by decide,
    soil_fault_isolation envAllOk envOcFails .oc rfl
      (fun id h => if_neg h) ⟨mkRat 68 10, by decide⟩ (by decide)⟩

/-- C8: the zonal reductions are invoked at buffer 30 and scale 10 for the
vegetation composite and at buffer 250 and scale 250 for every soil layer:
two environments whose oracles agree at exactly those argument points (and
on band lists) are indistinguishable to the analysis, whatever they reply
elsewhere. -/
theorem reduction_parameters (env env2 : RasterEnv)
    (hndvi : env2.ndviReduceRegion 30 10 = env.ndviReduceRegion 30 10)
    (hsoil : ∀ l : SoilLayer,
      (env2.image (layerIdOf l)).bandNames = (env.image (layerIdOf l)).bandNames ∧
      ∀ b, (env2.image (layerIdOf l)).reduceRegion 250 250 b =
        (env.image (layerIdOf l)).reduceRegion 250 250 b) :
    analyze env2 = analyze env := by
  have hm : meanNdvi env2 = meanNdvi env := by
    unfold meanNdvi
    rw [hndvi]
  have hs : ∀ l : SoilLayer, soilValue env2 l = soilValue env l := fun l =>
    get_soil_value_congr _ _ _ _ _ (hsoil l).1 ((hsoil l).2 (bandOf l))
  unfold analyze
  rw [hm, hs .oc, hs .ph, hs .sand, hs .clay]

/-- Witness for C8: `envAllOk` and `envOnlyAtParams` agree only at the
specified reduction parameters, yet the analysis cannot tell them apart. -/
theorem reduction_parameters_witness :
    envOnlyAtParams.ndviReduceRegion 30 10 = envAllOk.ndviReduceRegion 30 10 ∧
    analyze envOnlyAtParams = analyze envAllOk :=
  ⟨rfl,
    reduction_parameters envAllOk envOnlyAtParams rfl
      (fun _ => ⟨rfl, fun _ => rfl⟩)⟩

/-- C9: the analysis is deterministic: two runs against identically
responding raster oracles produce the identical result — same status,
color, display string and soil entries. -/
theorem analyze_deterministic (env env2 : RasterEnv)
    (hndvi : ∀ b s, env2.ndviReduceRegion b s = env.ndviReduceRegion b s)
    (himg : ∀ id, env2.image id = env.image id) :
    analyze env2 = analyze env := by
  have hm : meanNdvi env2 = meanNdvi env := by
    unfold meanNdvi
    rw [hndvi]
  have hs : ∀ l : SoilLayer, soilValue env2 l = soilValue env l := by
    intro l
    unfold soilValue
    rw [himg]
  unfold analyze
  rw [hm, hs .oc, hs .ph, hs .sand, hs .clay]

/-- Witness for C9 at two identically responding environments. -/
theorem analyze_deterministic_witness :
    (∀ b s : ℚ, envAllOkAlt.ndviReduceRegion b s = envAllOk.ndviReduceRegion b s) ∧
    analyze envAllOkAlt = analyze envAllOk :=
  ⟨fun _ _ => rfl,
    analyze_deterministic envAllOk envAllOkAlt (fun _ _ => rfl)
      (fun _ => rfl)⟩

/-! Association-list lemmas for the composite characterization. -/

lemma lookup_pair_append {β : Type} (k : String) (l1 l2 : List (String × β))
    (h : k ∉ l1.map Prod.fst) :
    List.lookup k (l1 ++ l2) = List.lookup k l2 := by
  induction l1 with
  | nil => rfl
  | cons a t ih =>
    obtain ⟨a1, a2⟩ := a
    simp only [List.map_cons, List.mem_cons] at h
    push_neg at h
    simp [List.lookup, beq_eq_false_iff_ne.mpr h.1, ih h.2]

lemma lookup_map_pair {β : Type} (k : String) (names : List String) (f : String → β) :
    List.lookup k (names.map (fun b => (b, f b))) =
      if k ∈ names then some (f k) else none := by
  induction names with
  | nil => rfl
  | cons a t ih =>
    by_cases hk : k = a
    · subst hk
      simp [List.lookup]
    · simp [List.lookup, beq_eq_false_iff_ne.mpr hk, ih, hk]

lemma lookup_filter_eq {β : Type} (k : String) (l : List (String × β)) :
    List.lookup k (l.filter (fun nf => nf.1 == k)) = List.lookup k l := by
  induction l with
  | nil => rfl
  | cons a t ih =>
    obtain ⟨a1, a2⟩ := a
    by_cases hk : a1 = k
    · subst hk
      simp [List.filter_cons, List.lookup, ih]
    · simp [List.filter_cons, List.lookup, beq_eq_false_iff_ne.mpr hk,
        beq_eq_false_iff_ne.mpr (Ne.symm hk), ih]

lemma filterMap_congr_mem {α β : Type} {f g : α → Option β} (l : List α)
    (h : ∀ a ∈ l, f a = g a) : l.filterMap f = l.filterMap g := by
  induction l with
  | nil => rfl
  | cons a t ih =>
    simp only [List.filterMap_cons, h a (List.mem_cons_self a t)]
    cases g a <;>
      simp [ih (fun x hx => h x (List.mem_cons_of_mem a hx))]

lemma filters_fuse (c : List SceneImg) (d1 d2 : ℤ) :
    filterLtMeta (filterDate (filterBounds c) d1 d2) "CLOUDY_PIXEL_PERCENTAGE" 10
      = retainedImgs c d1 d2 := by
  unfold filterBounds filterDate filterLtMeta retainedImgs
  rw [List.filter_filter, List.filter_filter]
  apply List.filter_congr
  intro i _
  cases hcov : i.coversPoint <;>
    cases hd : decide (d1 ≤ i.date ∧ i.date < d2) <;>
    cases hcl : (match List.lookup "CLOUDY_PIXEL_PERCENTAGE" i.props with
      | some v => decide (v < 10)
      | none => false) <;>
    simp [hcov, hd, hcl]

lemma bandAt_add_ndvi (i : SceneImg) (p : ℤ)
    (h : "NDVI" ∉ i.bands.map Prod.fst) :
    bandAt (add_ndvi i) "NDVI" p = ndviAt i p := by
  have hb : (add_ndvi i).bands = i.bands ++
      [("NDVI", fun q => match bandAt i "B8" q, bandAt i "B4" q with
        | some x, some y => if x + y = 0 then none else some ((x - y) / (x + y))
        | _, _ => none)] := rfl
  unfold bandAt
  rw [hb, lookup_pair_append _ _ _ h]
  simp [List.lookup, ndviAt]

/-- C6: the composite is exactly the claimed composition: starting from the
source collection, keep the images that intersect the point, fall in the
window and pass the cloud filter; per retained image attach the normalized
difference of bands `B8` and `B4`; combine by per-pixel median; and keep
only the `NDVI` band.  Concretely: every band of the result is named
`NDVI`, and its value at any pixel is the median of the retained images'
per-image NDVI values there.  (The source images are assumed not to carry a
band already named `NDVI`, as Sentinel-2 images do not.) -/
theorem composite_construction (c : List SceneImg) (d1 d2 : ℤ)
    (hfree : ∀ i ∈ c, "NDVI" ∉ i.bands.map Prod.fst) :
    (∀ nf ∈ (s2Composite c d1 d2).bands, nf.1 = "NDVI") ∧
    ∀ p : ℤ, bandAt (s2Composite c d1 d2) "NDVI" p =
      listMedian ((retainedImgs c d1 d2).filterMap (fun i => ndviAt i p)) := by
  constructor
  · intro nf hnf
    have hm := List.mem_filter.mp hnf
    exact eq_of_beq hm.2
  · intro p
    unfold s2Composite
    rw [filters_fuse]
    cases hr : retainedImgs c d1 d2 with
    | nil => rfl
    | cons j t =>
      have hmem : "NDVI" ∈ collBandNames (List.map add_ndvi (j :: t)) := by
        show "NDVI" ∈ (add_ndvi j).bands.map Prod.fst
        have hb : (add_ndvi j).bands.map Prod.fst = j.bands.map Prod.fst ++ ["NDVI"] := by
          simp [add_ndvi, addBands, renameBands, normalizedDifference]
        rw [hb]
        exact List.mem_append_right _ (List.mem_cons_self _ _)
      unfold bandAt selectBand medianColl
      simp only
      rw [lookup_filter_eq, lookup_map_pair, if_pos hmem]
      simp only
      rw [List.filterMap_map]
      refine congrArg listMedian (filterMap_congr_mem _ ?_)
      intro i hi
      have hic : i ∈ c := by
        have : i ∈ retainedImgs c d1 d2 := by
          rw [hr]
          exact hi
        exact List.mem_of_mem_filter this
      exact bandAt_add_ndvi i p (hfree i hic)

/-- Witness for C6 at a concrete three-image collection and pixel `0`. -/
theorem composite_construction_witness :
    (∀ i ∈ collW, "NDVI" ∉ i.bands.map Prod.fst) ∧
    bandAt (s2Composite collW 0 10) "NDVI" 0 =
      listMedian ((retainedImgs collW 0 10).filterMap (fun i => ndviAt i 0)) :=
  ⟨by decide, (composite_construction collW 0 10 (by decide)).2 0⟩

/-- C7 counterexample: an image whose cloudy-pixel percentage is exactly 10
— which does not exceed 10, so the claim calls it eligible — is discarded
by the source's `ee.Filter.lt("CLOUDY_PIXEL_PERCENTAGE", 10)`. -/
theorem cloud_filter_boundary_counterexample :
    List.lookup "CLOUDY_PIXEL_PERCENTAGE" imgCloudTen.props = some 10 ∧
    ¬ ((10 : ℚ) > 10) ∧
    filterLtMeta [imgCloudTen] "CLOUDY_PIXEL_PERCENTAGE" 10 = [] :=
  ⟨rfl, by norm_num, rfl⟩

/-- C7 (amended): an image is eligible for compositing exactly when its
cloudy-pixel percentage is present and strictly less than the threshold 10;
images at exactly 10 (or above, or with the metadata missing) are
discarded. -/
theorem cloud_filter_strict (c : List SceneImg) (img : SceneImg) :
    img ∈ filterLtMeta c "CLOUDY_PIXEL_PERCENTAGE" 10 ↔
    img ∈ c ∧ ∃ v, List.lookup "CLOUDY_PIXEL_PERCENTAGE" img.props = some v ∧
      v < 10 := by
  unfold filterLtMeta
  rw [List.mem_filter]
  constructor
  · rintro ⟨hmem, hcond⟩
    refine ⟨hmem, ?_⟩
    cases hl : List.lookup "CLOUDY_PIXEL_PERCENTAGE" img.props with
    | none =>
      rw [hl] at hcond
      cases hcond
    | some v =>
      rw [hl] at hcond
      exact ⟨v, rfl, of_decide_eq_true hcond⟩
  · rintro ⟨hmem, v, hl, hv⟩
    refine ⟨hmem, ?_⟩
    rw [hl]
    exact decide_eq_true hv

end CropHealth
